import Mathlib

/-!
Shallow embedding of the per-source MJPEG stream session core of `cam_serv.py`:
the demand counter, the connect/read retry loops, the frame buffer versioning,
the snapshot path and the session-acquisition fragment, together with theorems
settling the specified properties against these definitions. Line numbers in
doc comments refer to `src/cam_serv.py`.
-/

namespace CamServ

/-! ## Demand counting (camera_stream handler) -/

/-- A demand-counter operation on one session: the `camera.clients += 1` performed
by the `camera_stream` handler at attach (line 113), or the `camera.clients -= 1`
performed by the `finally` block of `generate` at detach (line 142). -/
inductive ClientOp
  | subscribe
  | release
deriving DecidableEq

/-- Effect of one demand operation on the clients counter (lines 113 and 142). -/
def applyClientOp (c : Int) : ClientOp → Int
  | ClientOp.subscribe => c + 1
  | ClientOp.release => c - 1

/-- Value of `camera.clients` after a trace of demand operations, starting from the
0 set in `__init__` (line 26). -/
def clientsAfter (ops : List ClientOp) : Int :=
  ops.foldl applyClientOp 0

/-- Number of subscribe operations in a trace. -/
def subCount : List ClientOp → Nat
  | [] => 0
  | ClientOp.subscribe :: rest => subCount rest + 1
  | ClientOp.release :: rest => subCount rest

/-- Number of release operations in a trace. -/
def relCount : List ClientOp → Nat
  | [] => 0
  | ClientOp.subscribe :: rest => relCount rest
  | ClientOp.release :: rest => relCount rest + 1

/-- A trace of demand operations is well formed when every detach is performed by a
previously attached client: in each prefix, releases never outnumber subscribes.
This holds of the handler because the decrement at line 142 sits in the `finally`
of a generator whose request performed the increment at line 113 first. -/
def WFTrace (ops : List ClientOp) : Prop :=
  ∀ p, p <+: ops → relCount p ≤ subCount p

/-- How a streaming request's generator ends: the downstream client disconnects
(GeneratorExit propagated into the `finally`), the wait loop aborts with 404
(line 133), or an error while sending a frame propagates out of the `yield`. -/
inductive ExitCause
  | clientDisconnect
  | abortNotConnected
  | sendError
deriving DecidableEq

/-- Demand operations performed by the `finally` block of `generate`
(lines 141-145) for each way the generator ends: line 142 runs unconditionally,
so the block performs exactly one decrement in every case. -/
def generateFinallyOps : ExitCause → List ClientOp
  | ExitCause.clientDisconnect => [ClientOp.release]
  | ExitCause.abortNotConnected => [ClientOp.release]
  | ExitCause.sendError => [ClientOp.release]

theorem foldl_applyClientOp (ops : List ClientOp) :
    ∀ c : Int, ops.foldl applyClientOp c = c + subCount ops - relCount ops := by
  induction ops with
  | nil => intro c; simp [subCount, relCount]
  | cons op rest ih =>
    intro c
    cases op <;> simp [applyClientOp, subCount, relCount, ih] <;> omega

theorem clientsAfter_eq (ops : List ClientOp) :
    clientsAfter ops = (subCount ops : Int) - relCount ops := by
  simpa using foldl_applyClientOp ops 0

/-- C1: over every well-formed interleaving of subscribe/release operations on one
session, at every observation point (every prefix of the trace) the clients counter
equals subscribes minus releases and is never negative; and the detach path
(the `finally` block of `generate`) performs exactly one decrement whatever the
exit cause, so each attaching client is matched by exactly one decrement. -/
theorem C1_demand_count_invariant (ops : List ClientOp) (hwf : WFTrace ops) :
    (∀ p, p <+: ops →
        clientsAfter p = (subCount p : Int) - relCount p ∧ 0 ≤ clientsAfter p) ∧
    ∀ cause : ExitCause, relCount (generateFinallyOps cause) = 1 := by
  refine ⟨fun p hp => ⟨clientsAfter_eq p, ?_⟩, fun cause => by cases cause <;> rfl⟩
  have hle : relCount p ≤ subCount p := hwf p hp
  rw [clientsAfter_eq p]
  omega

theorem C1_demand_count_invariant_witness :
    WFTrace [ClientOp.subscribe, ClientOp.subscribe, ClientOp.release] ∧
    (clientsAfter [ClientOp.subscribe, ClientOp.subscribe, ClientOp.release] =
        (subCount [ClientOp.subscribe, ClientOp.subscribe, ClientOp.release] : Int) -
          relCount [ClientOp.subscribe, ClientOp.subscribe, ClientOp.release] ∧
      0 ≤ clientsAfter [ClientOp.subscribe, ClientOp.subscribe, ClientOp.release]) := by
  have hwf : WFTrace [ClientOp.subscribe, ClientOp.subscribe, ClientOp.release] := by
    have hall : ∀ p ∈ ([ClientOp.subscribe, ClientOp.subscribe,
        ClientOp.release] : List ClientOp).inits, relCount p ≤ subCount p := by decide
    intro p hp
    exact hall p ((List.mem_inits p _).mpr hp)
  exact ⟨hwf, (C1_demand_count_invariant _ hwf).1 _ (List.prefix_refl _)⟩

/-! ## Connect retry loop (_update_stream, outer loop) -/

/-- Outcome of the connect portion of `_update_stream` observed after a bounded
number of unrolled outer-loop iterations. -/
inductive ConnectOutcome
  | connectedAt (attempt : Nat)
  | stillRetrying
deriving DecidableEq

/-- The connect retry logic of `_update_stream` (lines 34-43), as written: each
outer iteration opens a fresh `cv2.VideoCapture` and then sets the local `retry`
counter to 0 (line 38) before testing `retry < 35`, so the test always sees 0; on
a failed open the iteration increments the fresh counter, sleeps 0.2s and
continues with the next iteration (and when the test were to fail it would
`continue` without sleeping — both arms re-enter the loop; no branch leaves it).
`opens i` tells whether the i-th open attempt yields an opened capture; `fuel`
bounds how many iterations are unrolled. -/
def connectLoop (opens : Nat → Bool) : Nat → Nat → ConnectOutcome
  | _, 0 => ConnectOutcome.stillRetrying
  | i, fuel + 1 =>
    if opens i then ConnectOutcome.connectedAt i
    else
      let retry : Nat := 0
      if retry < 35 then connectLoop opens (i + 1) fuel
      else connectLoop opens (i + 1) fuel

/-- C2 fails on the code: because `retry` is re-initialized to 0 on every outer
iteration (line 38), the `retry < 35` guard always passes, so when the upstream
never opens the connect loop is still retrying after any number of iterations —
in particular after far more than 35 attempts — and no transition to a Failed
state is ever taken (the error branch at lines 46-49 is unreachable). -/
theorem C2_connect_retry_never_exhausts :
    ∀ fuel i, connectLoop (fun _ => false) i fuel = ConnectOutcome.stillRetrying := by
  intro fuel
  induction fuel with
  | zero => intro i; rfl
  | succ n ih => intro i; simp [connectLoop, ih]

/-! ## Snapshot handler: connected-wait loop and frame read -/

/-- Result of the snapshot handler's connected-wait loop (lines 170-178) after a
bounded number of unrolled iterations. -/
inductive SnapWait
  | proceed (t : Nat)
  | aborted404
  | looping
deriving DecidableEq

/-- The snapshot handler's wait for connection (lines 170-178), as written:
`retry` is declared inside the `while` body and reset to 0 on every iteration
(line 171), so the `retry < 15` test always passes and every iteration just
sleeps 0.2s and re-checks `camera.connected`; the `abort(404)` branch at
line 177 is unreachable. `connectedAt t` is the value of `camera.connected`
observed on the t-th poll. -/
def snapshotWait (connectedAt : Nat → Bool) : Nat → Nat → SnapWait
  | _, 0 => SnapWait.looping
  | t, fuel + 1 =>
    if connectedAt t then SnapWait.proceed t
    else
      let retry : Nat := 0
      if retry < 15 then snapshotWait connectedAt (t + 1) fuel
      else SnapWait.aborted404

/-- Reply of the snapshot handler once past the wait. -/
inductive SnapReply
  | jpeg (bs : List Nat)
  | noFrame404
deriving DecidableEq

/-- The frame read of the snapshot handler (lines 180-185): 404 when the buffer
holds no frame yet, otherwise the buffered JPEG bytes. -/
def snapshotRead : Option (List Nat) → SnapReply
  | none => SnapReply.noFrame404
  | some bs => SnapReply.jpeg bs

/-- C3 fails on the code for its bounded-wait part: since `retry` is reset to 0
inside the loop body (line 171), a snapshot against a session that never connects
polls forever — after any number of polls the loop is still running and the 404
abort is never reached, so an unbounded retry loop is reachable from a single
snapshot request. The NoFrameYet part does hold: once connected, an absent frame
yields 404 and a present frame is returned. -/
theorem C3_snapshot_wait_never_aborts :
    (∀ fuel t, snapshotWait (fun _ => false) t fuel = SnapWait.looping) ∧
    snapshotRead none = SnapReply.noFrame404 ∧
    (∀ bs, snapshotRead (some bs) = SnapReply.jpeg bs) := by
  refine ⟨?_, rfl, fun bs => rfl⟩
  intro fuel
  induction fuel with
  | zero => intro t; rfl
  | succ n ih => intro t; simp [snapshotWait, ih]

/-! ## Release path (generate's finally and stop_stream) -/

/-- Control fields touched by the detach path: the clients counter, the capture
loop's `running` flag, whether `self.thread` currently references a thread
(`threadSome`), and whether the caller has executed the blocking
`self.thread.join()` of line 93 (`joinedThread`). -/
structure SessionCtl where
  clients : Int
  running : Bool
  threadSome : Bool
  joinedThread : Bool
deriving DecidableEq

/-- `stop_stream` (lines 89-94): clears `running`, and when a thread handle is
present performs `self.thread.join()` — a blocking wait in the caller's own
context — then drops the handle. -/
def stop_stream (s : SessionCtl) : SessionCtl :=
  { s with running := false
           joinedThread := s.joinedThread || s.threadSome
           threadSome := false }

/-- The `finally` block of `generate` (lines 141-145): decrement `clients`; when
the result is 0, call `stop_stream` synchronously from the releasing client's
context. -/
def generateFinally (s : SessionCtl) : SessionCtl :=
  let s' : SessionCtl := { s with clients := s.clients - 1 }
  if s'.clients = 0 then stop_stream s' else s'

/-- C4 fails on the code: when the last client releases (clients 1 → 0), the
`finally` block synchronously calls `stop_stream`, which clears `running` and
performs a blocking `thread.join()` on the capture loop thread in the releasing
client's context — teardown is not left to the capture loop. A non-last release
(clients 2 → 1) performs no join. -/
theorem C4_last_release_joins_capture_thread :
    (generateFinally
        { clients := 1, running := true, threadSome := true, joinedThread := false }) =
      { clients := 0, running := false, threadSome := false, joinedThread := true } ∧
    (generateFinally
        { clients := 2, running := true, threadSome := true, joinedThread := false }) =
      { clients := 1, running := true, threadSome := true, joinedThread := false } := by
  exact ⟨rfl, rfl⟩

/-! ## Idle countdown of the read loop (_update_stream, inner loop) -/

/-- Per-cycle demand check of the read loop (lines 69-73), as written: on a
zero-client cycle `noclientsThrottle` is decremented and the loop breaks when the
decremented value is ≤ 0; on a nonzero-client cycle the throttle is left
untouched — the loop body has no reset branch. Returns the new throttle value and
whether the loop breaks. -/
def demandCheck (clients throttle : Int) : Int × Bool :=
  if clients = 0 then (throttle - 1, decide (throttle - 1 ≤ 0)) else (throttle, false)

/-- The per-cycle countdown update as claim C5 states it: decrement and stop at 0
on a zero-demand cycle, reset to the full value 45 on a cycle with nonzero
demand. -/
def demandCheckClaimed (clients throttle : Int) : Int × Bool :=
  if clients = 0 then (throttle - 1, decide (throttle - 1 ≤ 0)) else (45, false)

/-- Counterexample to C5 as stated: on a cycle with one client attached and the
countdown at 44, the code leaves the countdown at 44, while the claim requires it
to be reset to the full value 45. -/
theorem C5_reset_counterexample :
    demandCheck 1 44 = (44, false) ∧ demandCheckClaimed 1 44 = (45, false) ∧
    demandCheck 1 44 ≠ demandCheckClaimed 1 44 := by
  refine ⟨by decide, by decide, by decide⟩

/-- The demand/teardown skeleton of the read loop (lines 51-74): starting at
cycle `a` with countdown `t` (initialized to 45 at line 51 when the connection is
established), each cycle runs the grab/publish body — which does not touch the
demand state — and then the check of lines 69-73. `clients i` is the client count
the loop observes on cycle i. Returns the cycle index just past the break, at
which point `cap.release()` (line 74) runs exactly once, or `none` when `fuel`
cycles pass without a break. -/
def readLoop (clients : Nat → Int) : Nat → Int → Nat → Option Nat
  | _, _, 0 => none
  | a, t, fuel + 1 =>
    if clients a = 0 then
      if t - 1 ≤ 0 then some (a + 1)
      else readLoop clients (a + 1) (t - 1) fuel
    else readLoop clients (a + 1) t fuel

/-- Number of zero-demand cycles among the cycles `a, a+1, ..., a+n-1`. -/
def zeroCycles (clients : Nat → Int) : Nat → Nat → Nat
  | _, 0 => 0
  | a, n + 1 => (if clients a = 0 then 1 else 0) + zeroCycles clients (a + 1) n

/-- C5 amended: on every read-loop cycle with zero demand the countdown is
decremented and the loop breaks — releasing the upstream handle once — exactly
when it reaches 0; on a cycle with nonzero demand the countdown is left
unchanged, not reset, so the break happens at the cycle on which the total number
of zero-demand cycles since the connection was established reaches the initial
countdown, regardless of interleaved nonzero-demand cycles. -/
theorem C5_idle_countdown_accumulates (clients : Nat → Int) (fuel : Nat) :
    ∀ a t d, 0 < t → readLoop clients a t fuel = some d →
      a < d ∧ zeroCycles clients a (d - a) = t.toNat ∧ clients (d - 1) = 0 := by
  induction fuel with
  | zero => intro a t d _ h; simp [readLoop] at h
  | succ n ih =>
    intro a t d ht h
    rw [readLoop] at h
    by_cases hc : clients a = 0
    · rw [if_pos hc] at h
      by_cases htt : t - 1 ≤ 0
      · rw [if_pos htt] at h
        have hd : d = a + 1 := by
          have := Option.some.inj h
          omega
        subst hd
        refine ⟨by omega, ?_, by simpa using hc⟩
        have hone : a + 1 - a = 1 := by omega
        rw [hone, zeroCycles, zeroCycles, if_pos hc]
        omega
      · rw [if_neg htt] at h
        obtain ⟨had, hz, hcl⟩ := ih (a + 1) (t - 1) d (by omega) h
        refine ⟨by omega, ?_, hcl⟩
        have hsplit : d - a = (d - (a + 1)) + 1 := by omega
        rw [hsplit, zeroCycles, if_pos hc]
        omega
    · rw [if_neg hc] at h
      obtain ⟨had, hz, hcl⟩ := ih (a + 1) t d ht h
      refine ⟨by omega, ?_, hcl⟩
      have hsplit : d - a = (d - (a + 1)) + 1 := by omega
      rw [hsplit, zeroCycles, if_neg hc]
      omega

theorem C5_idle_countdown_accumulates_witness :
    (0 : Int) < 1 ∧ readLoop (fun _ => (0 : Int)) 0 1 1 = some 1 ∧
    (0 < 1 ∧ zeroCycles (fun _ => (0 : Int)) 0 (1 - 0) = (1 : Int).toNat ∧
      (fun _ => (0 : Int)) (1 - 1) = 0) := by
  exact ⟨by decide, by decide,
    C5_idle_countdown_accumulates (fun _ => (0 : Int)) 1 0 1 1 (by decide) (by decide)⟩

/-! ## Session state and frame versioning -/

/-- The mutable per-session state of `MJPEGStream` relevant to frames and
lifecycle, as set up by `__init__` (lines 19-30). Frame bytes are modeled as
lists of naturals. -/
structure StreamState where
  frame : Option (List Nat)
  connected : Bool
  running : Bool
  clients : Int
  frame_id : Int
deriving DecidableEq

/-- `MJPEGStream.__init__` (lines 19-30): no frame, disconnected, not running,
zero clients, `frame_id` 0 — the only place `frame_id` is assigned a value other
than an increment. -/
def initStream : StreamState :=
  { frame := none, connected := false, running := false, clients := 0, frame_id := 0 }

/-- Publication of a newly encoded frame (lines 62-67, performed while holding
`frame_condition`, i.e. under exclusive access): the bytes are replaced and
`frame_id` is incremented by exactly 1, then all waiters are notified. -/
def publish (bs : List Nat) (s : StreamState) : StreamState :=
  { s with frame := some bs, frame_id := s.frame_id + 1 }

/-- The sequence of `frame_id` values a streaming subscriber yields: `fids` is
the sequence of buffer `frame_id` values the subscriber reads on its successive
wakeups (non-decreasing, since the buffer's id only grows), and `last` its
`last_yielded_frame_id` (initialized to -1 at line 121). Per the wait predicate
of line 126, `generate` keeps waiting while the buffer's id equals `last`, and
otherwise yields the frame and records the id it saw (line 138). -/
def observedIds : List Int → Int → List Int
  | [], _ => []
  | f :: rest, last =>
    if f = last then observedIds rest last else f :: observedIds rest f

/-- C6: each publish increments the version by exactly 1 under the lock, so the
buffer version is strictly increasing over a session's streaming lifetime; and a
subscriber reading a non-decreasing sequence of buffer versions, all at least its
last-seen marker, yields a strictly increasing sequence of versions, each above
the marker — versions are observed in increasing order and no version is ever
redelivered to the same subscriber. -/
theorem C6_version_monotone :
    (∀ s bs, (publish bs s).frame_id = s.frame_id + 1) ∧
    (∀ (fids : List Int) (last : Int), fids.Pairwise (· ≤ ·) →
      (∀ f ∈ fids, last ≤ f) →
      (observedIds fids last).Pairwise (· < ·) ∧
        ∀ v ∈ observedIds fids last, last < v) := by
  refine ⟨fun s bs => rfl, ?_⟩
  intro fids
  induction fids with
  | nil => intro last _ _; exact ⟨List.Pairwise.nil, by simp [observedIds]⟩
  | cons f rest ih =>
    intro last hpw hlb
    rw [List.pairwise_cons] at hpw
    obtain ⟨hf, hrest⟩ := hpw
    by_cases hfl : f = last
    · rw [observedIds, if_pos hfl]
      exact ih last hrest (fun g hg => hlb g (List.mem_cons_of_mem f hg))
    · rw [observedIds, if_neg hfl]
      have hlf : last < f :=
        lt_of_le_of_ne (hlb f (List.mem_cons_self f rest)) (fun h => hfl h.symm)
      obtain ⟨hpw', hgt⟩ := ih f hrest hf
      refine ⟨List.pairwise_cons.mpr ⟨hgt, hpw'⟩, ?_⟩
      intro v hv
      rcases List.mem_cons.mp hv with hv | hv
      · exact hv ▸ hlf
      · exact lt_trans hlf (hgt v hv)

theorem C6_version_monotone_witness :
    ([1, 1, 2] : List Int).Pairwise (· ≤ ·) ∧
    (∀ f ∈ ([1, 1, 2] : List Int), (-1 : Int) ≤ f) ∧
    ((observedIds [1, 1, 2] (-1)).Pairwise (· < ·) ∧
      ∀ v ∈ observedIds [1, 1, 2] (-1), (-1 : Int) < v) := by
  have h1 : ([1, 1, 2] : List Int).Pairwise (· ≤ ·) := by
    refine List.pairwise_cons.mpr ⟨?_, List.pairwise_cons.mpr ⟨?_, ?_⟩⟩ <;> decide
  have h2 : ∀ f ∈ ([1, 1, 2] : List Int), (-1 : Int) ≤ f := by decide
  exact ⟨h1, h2, C6_version_monotone.2 [1, 1, 2] (-1) h1 h2⟩

/-! ## Session lifetime and frame_id persistence -/

/-- The state mutations `MJPEGStream` performs on a session over its lifetime,
each tagged with the source line it embeds. -/
inductive SessionOp
  | publishFrame (bs : List Nat)
  | connectUp
  | connectDown
  | loopExit
  | startRunning
  | stopRunning
  | attach
  | detach
deriving DecidableEq

/-- Effect of each mutation: `publishFrame` is lines 62-67; `connectUp` is
line 50 (`self.connected = True`); `connectDown` is line 48; `loopExit` is the
epilogue of `_update_stream` (lines 78-80: `connected`, `running` cleared and
`frame` dropped); `startRunning` is line 85; `stopRunning` is line 91; `attach`
and `detach` are the clients updates of lines 113 and 142. -/
def applySessionOp (s : StreamState) : SessionOp → StreamState
  | SessionOp.publishFrame bs => publish bs s
  | SessionOp.connectUp => { s with connected := true }
  | SessionOp.connectDown => { s with connected := false }
  | SessionOp.loopExit => { s with connected := false, running := false, frame := none }
  | SessionOp.startRunning => { s with running := true }
  | SessionOp.stopRunning => { s with running := false }
  | SessionOp.attach => { s with clients := s.clients + 1 }
  | SessionOp.detach => { s with clients := s.clients - 1 }

theorem applySessionOp_frame_id_le (s : StreamState) (op : SessionOp) :
    s.frame_id ≤ (applySessionOp s op).frame_id := by
  cases op <;> simp [applySessionOp, publish]

/-- C10: `frame_id` is 0 only at construction; a publish is the only mutation
that changes it, and it increments it by exactly 1; the loop epilogue clears the
frame, the connected flag and the running flag but leaves `frame_id` untouched;
hence over any sequence of session mutations — spanning disconnects, loop exits
and reconnects — `frame_id` never decreases. -/
theorem C10_frame_id_never_reset :
    initStream.frame_id = 0 ∧
    (∀ s bs, (applySessionOp s (SessionOp.publishFrame bs)).frame_id = s.frame_id + 1) ∧
    (∀ s op, (∀ bs, op ≠ SessionOp.publishFrame bs) →
      (applySessionOp s op).frame_id = s.frame_id) ∧
    (∀ s, applySessionOp s SessionOp.loopExit =
      { s with connected := false, running := false, frame := none }) ∧
    (∀ (ops : List SessionOp) (s : StreamState),
      s.frame_id ≤ (ops.foldl applySessionOp s).frame_id) := by
  refine ⟨rfl, fun s bs => rfl, ?_, fun s => rfl, ?_⟩
  · intro s op hop
    cases op with
    | publishFrame bs => exact absurd rfl (hop bs)
    | _ => rfl
  · intro ops
    induction ops with
    | nil => intro s; simp
    | cons op rest ih =>
      intro s
      calc s.frame_id ≤ (applySessionOp s op).frame_id := applySessionOp_frame_id_le s op
        _ ≤ ((op :: rest).foldl applySessionOp s).frame_id := by
            rw [List.foldl_cons]; exact ih (applySessionOp s op)

theorem C10_frame_id_never_reset_witness :
    (∀ bs, SessionOp.loopExit ≠ SessionOp.publishFrame bs) ∧
    (applySessionOp initStream SessionOp.loopExit).frame_id = initStream.frame_id := by
  refine ⟨fun bs => by simp, ?_⟩
  exact C10_frame_id_never_reset.2.2.1 initStream SessionOp.loopExit (fun bs => by simp)

/-! ## Per-frame wait of a streaming subscriber (generate, lines 119-140) -/

/-- Result of one pass of `generate` waiting for its next frame. -/
inductive NextFrame
  | yielded (fid : Int) (bs : List Nat)
  | unavailable404
  | waiting
deriving DecidableEq

/-- One streaming subscriber's wait for its next frame (`generate`, lines
119-140), sequentialized over wakeup instants t: at each wakeup the loop
re-checks the predicate of line 126 against the buffer's current `frame_id`
(`fidAt t`) and `camera.connected` (`connectedAt t`). A disconnected check
increments the `retry` counter — which is initialized once per generator at
line 120, not per wait — and aborts with 404 (line 133) once it has reached 20;
a connected check with an unchanged `frame_id` waits again without touching
`retry` (line 135). When the predicate clears, the frame is read under the lock
(line 136) and yielded together with the current `frame_id`, which `generate`
records as its new `last_yielded_frame_id` (line 138); when the buffer is still
empty the outer `while True` restarts the wait (line 137). Returns the result and
the final value of `retry`; `fuel` bounds the wakeups unrolled. -/
def nextFrameWait (connectedAt : Nat → Bool) (fidAt : Nat → Int)
    (frameAt : Nat → Option (List Nat)) : Int → Nat → Nat → Nat → NextFrame × Nat
  | _, retry, _, 0 => (NextFrame.waiting, retry)
  | last, retry, t, fuel + 1 =>
    if connectedAt t = false ∨ fidAt t = last then
      if connectedAt t = false then
        if retry < 20 then
          nextFrameWait connectedAt fidAt frameAt last (retry + 1) (t + 1) fuel
        else (NextFrame.unavailable404, retry)
      else nextFrameWait connectedAt fidAt frameAt last retry (t + 1) fuel
    else
      match frameAt t with
      | some bs => (NextFrame.yielded (fidAt t) bs, retry)
      | none => nextFrameWait connectedAt fidAt frameAt last retry (t + 1) fuel

theorem nextFrameWait_yielded_fresh (connectedAt : Nat → Bool) (fidAt : Nat → Int)
    (frameAt : Nat → Option (List Nat)) (last : Int) (hlb : ∀ u, last ≤ fidAt u) :
    ∀ fuel retry t fid bs r,
      nextFrameWait connectedAt fidAt frameAt last retry t fuel =
        (NextFrame.yielded fid bs, r) →
      last < fid ∧ ∃ u, fid = fidAt u ∧ frameAt u = some bs := by
  intro fuel
  induction fuel with
  | zero =>
    intro retry t fid bs r h
    rw [nextFrameWait] at h
    exact absurd (congrArg Prod.fst h) (by simp)
  | succ n ih =>
    intro retry t fid bs r h
    rw [nextFrameWait] at h
    by_cases hcond : connectedAt t = false ∨ fidAt t = last
    · rw [if_pos hcond] at h
      by_cases hconn : connectedAt t = false
      · rw [if_pos hconn] at h
        by_cases hr : retry < 20
        · rw [if_pos hr] at h
          exact ih (retry + 1) (t + 1) fid bs r h
        · rw [if_neg hr] at h
          exact absurd (congrArg Prod.fst h) (by simp)
      · rw [if_neg hconn] at h
        exact ih retry (t + 1) fid bs r h
    · rw [if_neg hcond] at h
      push_neg at hcond
      obtain ⟨hconn, hfid⟩ := hcond
      cases hfr : frameAt t with
      | some bs' =>
        rw [hfr] at h
        have hfst := congrArg Prod.fst h
        simp at hfst
        obtain ⟨hfid', hbs⟩ := hfst
        refine ⟨?_, t, hfid'.symm, by rw [hfr, hbs]⟩
        exact hfid' ▸ lt_of_le_of_ne (hlb t) (fun he => hfid he.symm)
      | none =>
        rw [hfr] at h
        exact ih retry (t + 1) fid bs r h

theorem nextFrameWait_disconnected_aborts (fidAt : Nat → Int)
    (frameAt : Nat → Option (List Nat)) (last : Int) :
    ∀ n retry, retry + n = 20 → ∀ t fuel, n < fuel →
      nextFrameWait (fun _ => false) fidAt frameAt last retry t fuel =
        (NextFrame.unavailable404, 20) := by
  intro n
  induction n with
  | zero =>
    intro retry hr t fuel hf
    obtain ⟨f, rfl⟩ : ∃ f, fuel = f + 1 := ⟨fuel - 1, by omega⟩
    have hr20 : retry = 20 := by omega
    subst hr20
    rw [nextFrameWait]
    simp
  | succ m ih =>
    intro retry hr t fuel hf
    obtain ⟨f, rfl⟩ : ∃ f, fuel = f + 1 := ⟨fuel - 1, by omega⟩
    have hlt : retry < 20 := by omega
    rw [nextFrameWait]
    simp only [if_pos (Or.inl rfl), if_pos rfl, if_pos hlt]
    exact ih (retry + 1) (by omega) (t + 1) f (by omega)

/-- C7: the per-frame wait of a streaming subscriber either yields frame bytes
whose version is strictly above the subscriber's last-seen version — bytes that
were in the buffer together with that version, so an already-seen version is
never redelivered — or, when the session stays disconnected, aborts with 404
after its retry budget of 20 disconnected waits (0.1s apart) is exhausted: with
a fresh budget, exactly 20 disconnected wakeups are consumed and then the 404 is
raised, whatever frames the buffer holds. -/
theorem C7_next_frame_bounded (connectedAt : Nat → Bool) (fidAt : Nat → Int)
    (frameAt : Nat → Option (List Nat)) :
    (∀ last, (∀ u, last ≤ fidAt u) → ∀ fuel retry t fid bs r,
      nextFrameWait connectedAt fidAt frameAt last retry t fuel =
        (NextFrame.yielded fid bs, r) →
      last < fid ∧ ∃ u, fid = fidAt u ∧ frameAt u = some bs) ∧
    (∀ last t fuel, 20 < fuel →
      nextFrameWait (fun _ => false) fidAt frameAt last 0 t fuel =
        (NextFrame.unavailable404, 20)) := by
  constructor
  · intro last hlb fuel retry t fid bs r h
    exact nextFrameWait_yielded_fresh connectedAt fidAt frameAt last hlb fuel retry t fid bs r h
  · intro last t fuel hf
    exact nextFrameWait_disconnected_aborts fidAt frameAt last 20 0 rfl t fuel hf

theorem C7_next_frame_bounded_witness :
    (∀ u : Nat, (0 : Int) ≤ (fun _ => (1 : Int)) u) ∧
    nextFrameWait (fun _ => true) (fun _ => (1 : Int)) (fun _ => some [7]) 0 0 0 1 =
      (NextFrame.yielded 1 [7], 0) ∧
    ((0 : Int) < 1 ∧ ∃ _u : Nat, (1 : Int) = 1 ∧
      (some [7] : Option (List Nat)) = some [7]) ∧
    (20 < 21 ∧
      nextFrameWait (fun _ => false) (fun _ => (1 : Int)) (fun _ => some [7]) 0 0 0 21 =
        (NextFrame.unavailable404, 20)) := by
  have hev : nextFrameWait (fun _ => true) (fun _ => (1 : Int)) (fun _ => some [7]) 0 0 0 1 =
      (NextFrame.yielded 1 [7], 0) := by
    rw [nextFrameWait]
    simp
  refine ⟨fun u => by norm_num, hev, ?_, by norm_num, ?_⟩
  · exact (C7_next_frame_bounded (fun _ => true) (fun _ => (1 : Int))
      (fun _ => some [7])).1 0 (fun u => by norm_num) 1 0 0 1 [7] 0 hev
  · exact (C7_next_frame_bounded (fun _ => true) (fun _ => (1 : Int))
      (fun _ => some [7])).2 0 0 21 (by norm_num)

/-! ## Concurrent first access to one camera id (lines 108-116 and 82-87) -/

/-- Identifier of one of two request-handler threads racing through the
session-acquisition fragment for the same camera id. -/
inductive Tid
  | A
  | B
deriving DecidableEq

/-- Global and thread-local state of the race: `streamMap` is the
`camera_streams` entry for the contended id (session objects are numbered in
allocation order by `nextId`), `constructed` lists the `MJPEGStream` objects
built, `started` the capture threads spawned, `runningIds` the objects whose
`running` flag is set; `checkA`/`checkB` hold each thread's result of the
line-108 membership test and `localA`/`localB` each thread's `camera` local of
line 112. -/
structure RaceState where
  streamMap : Option Nat
  nextId : Nat
  constructed : List Nat
  started : List Nat
  runningIds : List Nat
  checkA : Bool
  checkB : Bool
  localA : Option Nat
  localB : Option Nat
deriving DecidableEq

def getCheck (s : RaceState) : Tid → Bool
  | Tid.A => s.checkA
  | Tid.B => s.checkB

def setCheck (s : RaceState) : Tid → Bool → RaceState
  | Tid.A, b => { s with checkA := b }
  | Tid.B, b => { s with checkB := b }

def getLocal (s : RaceState) : Tid → Option Nat
  | Tid.A => s.localA
  | Tid.B => s.localB

def setLocal (s : RaceState) : Tid → Option Nat → RaceState
  | Tid.A, v => { s with localA := v }
  | Tid.B, v => { s with localB := v }

/-- Atomic steps of the acquisition fragment, one per source statement.
`camera_streams` is a plain dict touched with no lock, so distinct statements of
the two handlers may interleave freely. The `clients` increment of line 113 is
omitted here: it does not affect which sessions or threads are created. -/
inductive RaceAction
  | memberCheck (t : Tid)
  | construct (t : Tid)
  | readCam (t : Tid)
  | startIfStopped (t : Tid)
deriving DecidableEq

/-- Semantics of each step: `memberCheck` is the `camera_id not in
camera_streams` test of line 108; `construct` is the body of that `if`
(line 110): it builds a fresh `MJPEGStream` and stores it, unconditionally
overwriting whatever the map holds by then; `readCam` is line 112; and
`startIfStopped` is lines 114-115 plus `start_stream` (lines 82-87): a fresh
object has `running` False and `thread` None, so the thread is spawned iff the
object is not already running. -/
def raceStep (s : RaceState) : RaceAction → RaceState
  | RaceAction.memberCheck t => setCheck s t (decide (s.streamMap = none))
  | RaceAction.construct t =>
    if getCheck s t then
      { s with streamMap := some s.nextId
               constructed := s.constructed ++ [s.nextId]
               nextId := s.nextId + 1 }
    else s
  | RaceAction.readCam t => setLocal s t s.streamMap
  | RaceAction.startIfStopped t =>
    match getLocal s t with
    | none => s
    | some i =>
      if i ∈ s.runningIds then s
      else { s with runningIds := i :: s.runningIds, started := s.started ++ [i] }

/-- State before either handler has run: the camera id is previously unseen. -/
def raceInit : RaceState :=
  { streamMap := none, nextId := 0, constructed := [], started := [],
    runningIds := [], checkA := false, checkB := false, localA := none, localB := none }

/-- Program order of one handler thread through the fragment. -/
def threadProgram (t : Tid) : List RaceAction :=
  [RaceAction.memberCheck t, RaceAction.construct t, RaceAction.readCam t,
   RaceAction.startIfStopped t]

/-- An interleaving in which both handlers pass the line-108 membership test
before either inserts: A checks, B checks, then A constructs, reads and starts,
then B constructs, reads and starts. -/
def raceSchedule : List RaceAction :=
  [RaceAction.memberCheck Tid.A, RaceAction.memberCheck Tid.B,
   RaceAction.construct Tid.A, RaceAction.readCam Tid.A,
   RaceAction.startIfStopped Tid.A,
   RaceAction.construct Tid.B, RaceAction.readCam Tid.B,
   RaceAction.startIfStopped Tid.B]

/-- Thread that performs a step, used to check the schedule is an interleaving. -/
def actionTid : RaceAction → Tid
  | RaceAction.memberCheck t => t
  | RaceAction.construct t => t
  | RaceAction.readCam t => t
  | RaceAction.startIfStopped t => t

/-- C8 fails on the code: the check-then-insert of lines 108-110 is performed
with no lock, so there is a legal interleaving of the two handlers' program
orders under which two distinct `MJPEGStream` objects are constructed for the
one camera id and two capture threads are started (each against its own
upstream connection), instead of exactly one session and one capture loop. -/
theorem C8_racing_acquire_duplicates_session :
    raceSchedule.filter (fun a => decide (actionTid a = Tid.A)) = threadProgram Tid.A ∧
    raceSchedule.filter (fun a => decide (actionTid a = Tid.B)) = threadProgram Tid.B ∧
    (raceSchedule.foldl raceStep raceInit).constructed = [0, 1] ∧
    (raceSchedule.foldl raceStep raceInit).started = [0, 1] := by
  refine ⟨by decide, by decide, by decide, by decide⟩

/-! ## Snapshot path and the demand counter (lines 150-185) -/

/-- The snapshot handler's effect on the session (lines 163-185, after the
config and registry steps): start the stream when not running (line 166), wait
for `camera.connected` (the loop of lines 170-178, summarized by its exit
condition: `comesUp` says whether the capture thread ever sets the flag — when
it never does, the handler never gets past the loop, per `snapshotWait`), then
read the frame under the lock and reply (lines 180-185). No statement of the
handler touches `camera.clients`. -/
def snapshotRun (comesUp : Bool) (s : StreamState) : StreamState × Option SnapReply :=
  let s1 := if s.running then s else { s with running := true }
  if s1.connected then (s1, some (snapshotRead s1.frame))
  else if comesUp then
    let s2 := { s1 with connected := true }
    (s2, some (snapshotRead s2.frame))
  else (s1, none)

/-- C9 fails on the code: the snapshot handler never touches the demand counter
— `clients` is identical before, during and after the frame read — so a
snapshot consumer is not counted in demand and an idle teardown (which fires on
`clients == 0`, line 69) can race with an in-progress snapshot read. In
particular a snapshot served from a connected session with no streaming client
runs entirely with `clients = 0`. -/
theorem C9_snapshot_holds_no_demand_reference :
    (∀ b s, ((snapshotRun b s).1).clients = s.clients) ∧
    (snapshotRun true
        { frame := some [9], connected := true, running := true,
          clients := 0, frame_id := 3 }) =
      ({ frame := some [9], connected := true, running := true,
          clients := 0, frame_id := 3 }, some (SnapReply.jpeg [9])) := by
  constructor
  · intro b s
    simp only [snapshotRun]
    by_cases hr : s.running <;> by_cases hc : s.connected <;> cases b <;>
      simp [hr, hc]
  · rfl

end CamServ
